import Mathlib

/-!
# TaskHive orchestrator subsystem — verification of spec claims

Shallow embedding of the TaskHive swarm orchestrator (scripts/swarm.py) and
the shared agent infrastructure (scripts/agents/base_agent.py,
coder_agent.py, tester_agent.py, deploy_agent.py).  External effects
(HTTP exchanges, the filesystem, subprocess results, LLM output) are passed
in explicitly as environment records; each embedded function mirrors the
control flow of the corresponding Python function.
-/

namespace TaskHive

/-! ## Lock manager (swarm.py: acquire_lock / release_lock)

`LockEnv` captures the filesystem interaction of one `acquire_lock` call:
whether the lock file exists, whether `read_text` + `json.loads` succeed,
the stored `timestamp` value (`lock_data.get("timestamp", 0)` — 0 when the
key is absent), the current `time.time()`, and whether the final
`write_text` succeeds.  Times are modelled as integers (seconds). -/

def LOCK_TIMEOUT : Int := 300

structure LockEnv where
  lockExists : Bool
  readOk : Bool
  lockTimestamp : Int
  now : Int
  writeOk : Bool
  deriving DecidableEq, Repr

structure AcquireOutcome where
  /-- `Except.ok b`: the call returns `b`; `Except.error ()`: an exception
  escapes the call (only the final write can raise — it is uncaught). -/
  result : Except Unit Bool
  wroteLock : Bool
  deriving Repr

/-- The unconditional `lock_file.write_text(...)` at the end of
`acquire_lock`, followed by `return True`. -/
def takeLock (env : LockEnv) : AcquireOutcome :=
  if env.writeOk then { result := Except.ok true, wroteLock := true }
  else { result := Except.error (), wroteLock := false }

/-- swarm.py `acquire_lock`: if the lock file exists, try to read and parse
it; a lock younger than `LOCK_TIMEOUT` blocks (`return False`); a stale
lock falls through to the write.  Any exception while reading or parsing is
swallowed (`except Exception: pass`) and control falls through to the
write as well. -/
def acquire_lock (env : LockEnv) : AcquireOutcome :=
  if env.lockExists then
    if env.readOk then
      if env.now - env.lockTimestamp < LOCK_TIMEOUT then
        { result := Except.ok false, wroteLock := false }
      else
        takeLock env
    else
      takeLock env
  else
    takeLock env

/-! ## Retrying client (base_agent.py: TaskHiveClient._request_with_retry)

One request is an interaction with an environment `outcomes : Nat → Outcome`
giving, for each attempt index, what the underlying HTTP call does. -/

def MAX_RETRIES : Nat := 3

def RETRY_DELAYS : List Nat := [1, 3, 5]

structure HttpResponse where
  status : Nat
  /-- `"application/json" in resp.headers.get("content-type", "")` -/
  contentTypeJson : Bool
  /-- `resp.json()` succeeds -/
  jsonParses : Bool
  /-- `resp.text[:200].strip()` is empty -/
  textBlank : Bool
  deriving DecidableEq, Repr

inductive Outcome
  /-- the request raises one of `TRANSIENT_ERRORS` -/
  | transientErr
  /-- the request returns a response -/
  | response (r : HttpResponse)
  /-- the request raises some other exception -/
  | genericErr
  deriving DecidableEq, Repr

inductive RetVal
  /-- the parsed `resp.json()` body is returned -/
  | parsedBody (r : HttpResponse)
  /-- a synthesized `{ok: false, error: {code, message}}` dict is returned -/
  | envelopeError (code : String)
  deriving DecidableEq, Repr

inductive RaisedErr
  | transient
  | httpStatus (r : HttpResponse)
  | generic
  | runtime
  deriving DecidableEq, Repr

inductive ReqResult
  | returned (v : RetVal)
  | raised (e : RaisedErr)
  deriving DecidableEq, Repr

def isRaised : ReqResult → Bool
  | ReqResult.raised _ => true
  | ReqResult.returned _ => false

structure RunStats where
  result : ReqResult
  /-- number of HTTP attempts actually made -/
  attempts : Nat
  /-- retries performed after a transient transport failure -/
  transientRetries : Nat
  /-- retries performed after a 5xx response -/
  serverRetries : Nat
  /-- number of `_reconnect()` calls -/
  reconnects : Nat
  deriving DecidableEq, Repr

/-- Handling of a response whose status is `< 500` (the part of the `try`
body after the server-error check): with a JSON content type, the parsed
body is returned — a parse failure there escapes to the outer generic
handler, which `break`s and re-raises; without a JSON content type a blank
body yields the `empty_response` envelope, otherwise parsing is attempted
anyway and failure yields the `non_json` envelope. -/
def handleResponse (r : HttpResponse) : ReqResult :=
  if r.contentTypeJson then
    if r.jsonParses then ReqResult.returned (RetVal.parsedBody r)
    else ReqResult.raised RaisedErr.generic
  else if r.textBlank then ReqResult.returned (RetVal.envelopeError "empty_response")
  else if r.jsonParses then ReqResult.returned (RetVal.parsedBody r)
  else ReqResult.returned (RetVal.envelopeError "non_json")

/-- One pass of the `for attempt in range(MAX_RETRIES)` loop, with
`remaining` attempts left (`attempt = MAX_RETRIES - remaining`).
`remaining = 0` is loop exit: `raise last_error or RuntimeError(...)`. -/
def requestGo (outcomes : Nat → Outcome) : Option RaisedErr → Nat → Nat → RunStats
  | lastError, _, 0 =>
    { result := ReqResult.raised (lastError.getD RaisedErr.runtime),
      attempts := 0, transientRetries := 0, serverRetries := 0, reconnects := 0 }
  | _, attempt, rem + 1 =>
    match outcomes attempt with
    | Outcome.transientErr =>
      -- `except TRANSIENT_ERRORS`: sleep + _reconnect only when not on the
      -- last attempt; `continue` either way.
      if rem = 0 then
        let s := requestGo outcomes (some RaisedErr.transient) (attempt + 1) rem
        { s with attempts := s.attempts + 1 }
      else
        let s := requestGo outcomes (some RaisedErr.transient) (attempt + 1) rem
        { s with attempts := s.attempts + 1,
                 transientRetries := s.transientRetries + 1,
                 reconnects := s.reconnects + 1 }
    | Outcome.response r =>
      if 500 ≤ r.status then
        -- `raise httpx.HTTPStatusError(...)`, caught by the
        -- `except httpx.HTTPStatusError` clause below.
        if rem = 0 then
          -- last attempt: falls through to `return e.response.json()`
          -- (or the synthesized envelope) — no reconnect, no raise.
          { result :=
              if r.jsonParses then ReqResult.returned (RetVal.parsedBody r)
              else ReqResult.returned (RetVal.envelopeError ("http_" ++ toString r.status)),
            attempts := 1, transientRetries := 0, serverRetries := 0, reconnects := 0 }
        else
          -- sleep + `continue` — note: no `_reconnect()` on this path.
          let s := requestGo outcomes (some (RaisedErr.httpStatus r)) (attempt + 1) rem
          { s with attempts := s.attempts + 1, serverRetries := s.serverRetries + 1 }
      else
        { result := handleResponse r,
          attempts := 1, transientRetries := 0, serverRetries := 0, reconnects := 0 }
    | Outcome.genericErr =>
      -- `except Exception`: `break`, then `raise last_error` (= this error).
      { result := ReqResult.raised RaisedErr.generic,
        attempts := 1, transientRetries := 0, serverRetries := 0, reconnects := 0 }

def requestWithRetry (outcomes : Nat → Outcome) : RunStats :=
  requestGo outcomes none 0 MAX_RETRIES

/-! ## Orchestrator tick (swarm.py: SwarmOrchestrator._tick and the three
priority checks)

Each remote fetch and each `run_sub_agent` invocation is resolved by the
environment: `TaskSummary.revisionResult` is the `action` of the revision
worker that would run for that task, `ClaimInfo.workerResult` the `action`
of the stage worker for that claim.  The model counts `run_sub_agent`
invocations. -/

structure TaskSummary where
  status : String
  revisionResult : String
  deriving DecidableEq, Repr

structure ClaimInfo where
  /-- `claim.get("task_id") or (claim.get("task") or {}).get("id")` is truthy -/
  hasTaskId : Bool
  taskStatus : String
  /-- pipeline stage read from `.swarm_state.json` (`"coding"` when the file
  is absent or unparsable) -/
  localStage : String
  /-- `acquire_lock` returned `False` for this task's directory -/
  lockBlocked : Bool
  workerResult : String
  deriving DecidableEq, Repr

structure TickEnv where
  myTasksFetchOk : Bool
  myTasks : List TaskSummary
  claimsFetchOk : Bool
  claims : List ClaimInfo
  scoutFetchOk : Bool
  /-- `active_count >= self.max_active` -/
  atCapacity : Bool
  scoutResult : String
  deriving DecidableEq, Repr

/-- The `for task_summary in revision_tasks` loop of `_check_revisions`:
dispatch a revision worker per task; return `True` as soon as one reports
`"revised"`, otherwise fall through to the next task.  Result: number of
dispatches made, and the returned boolean. -/
def revisionsLoop : List TaskSummary → Nat × Bool
  | [] => (0, false)
  | t :: ts =>
    if t.revisionResult = "revised" then (1, true)
    else
      let r := revisionsLoop ts
      (r.1 + 1, r.2)

def check_revisions (env : TickEnv) : Nat × Bool :=
  if env.myTasksFetchOk then
    revisionsLoop (env.myTasks.filter (fun t => t.status == "in_progress"))
  else (0, false)

/-- The `for claim in accepted_claims` loop of `_check_work`: skip claims
without a task id, claims whose remote task status is terminal, claims
whose local stage maps to no worker, and locked tasks; otherwise dispatch
the stage worker and return `True` when its action is neither `"error"`
nor `"no_result"`. -/
def workLoop : List ClaimInfo → Nat × Bool
  | [] => (0, false)
  | c :: cs =>
    if ¬ c.hasTaskId then workLoop cs
    else if c.taskStatus = "completed" ∨ c.taskStatus = "delivered" ∨
            c.taskStatus = "cancelled" then workLoop cs
    else if ¬ (c.localStage = "coding" ∨ c.localStage = "testing" ∨
               c.localStage = "deploying") then workLoop cs
    else if c.lockBlocked then workLoop cs
    else if c.workerResult ≠ "error" ∧ c.workerResult ≠ "no_result" then (1, true)
    else
      let r := workLoop cs
      (r.1 + 1, r.2)

def check_work (env : TickEnv) : Nat × Bool :=
  if env.claimsFetchOk then workLoop env.claims
  else (0, false)

def check_scout (env : TickEnv) : Nat × Bool :=
  if env.scoutFetchOk then
    if env.atCapacity then (0, false)
    else (1, env.scoutResult == "claimed")
  else (0, false)

/-- Total number of `run_sub_agent` invocations in one `_tick`: priority 2
runs only when priority 1 returned `False`, priority 3 only when both
returned `False` — but dispatches made inside a tier that returns `False`
still happened. -/
def tickDispatches (env : TickEnv) : Nat :=
  let r := check_revisions env
  if r.2 then r.1
  else
    let w := check_work env
    if w.2 then r.1 + w.1
    else r.1 + w.1 + (check_scout env).1

/-! ## Pipeline state (the `.swarm_state.json` record)

Fields are those the worker agents read and write; `status` is the stage
driving dispatch (`""` models a missing key, which compares unequal to
every stage name exactly as Python's `None` does), `testCommand = none`
models a missing `test_command` key. -/

structure Plan where
  /-- `step_number` of each entry of `plan["steps"]`, in order -/
  steps : List Nat
  /-- `plan.get("test_command")` -/
  testCommand : Option String
  /-- `plan.get("scaffold_command")` -/
  scaffoldCommand : Option String
  deriving DecidableEq, Repr

structure SwarmState where
  status : String
  currentStep : Nat
  totalSteps : Nat
  /-- `step_number` of each entry of `completed_steps` -/
  completedSteps : List Nat
  testErrors : String
  iterations : Nat
  testCommand : Option String
  plan : Option Plan
  scaffolded : Bool
  repoUrl : Option String
  deriving DecidableEq, Repr

/-- Python truthiness test `if not test_command:` on
`state.get("test_command")`. -/
def noneOrEmpty : Option String → Bool
  | none => true
  | some s => s == ""

/-- `pat` starts the character list `l`. -/
def charsStartWith : List Char → List Char → Bool
  | [], _ => true
  | _ :: _, [] => false
  | a :: as, b :: bs => a == b && charsStartWith as bs

def strContainsAux (pat : List Char) : List Char → Bool
  | [] => pat.isEmpty
  | b :: bs => charsStartWith pat (b :: bs) || strContainsAux pat bs

/-- Python `pat in s` for strings. -/
def strContains (s pat : String) : Bool := strContainsAux pat.data s.data

/-- Python `out[-n:] if len(out) > n else out`. -/
def lastChars (n : Nat) (s : String) : String :=
  if n < s.length then String.mk (s.data.drop (s.length - n)) else s

/-! ## Stage-transition bookkeeping

`savedStatuses` of each worker outcome lists the `status` field of every
state record the worker persisted, in order; `statusChainOk` checks that
successive persisted statuses either repeat the previous one or follow an
allowed pipeline edge. -/

def allowedEdge (a b : String) : Bool :=
  (a == "coding" && b == "testing") || (a == "testing" && b == "deploying") ||
  (a == "deploying" && b == "delivered") || (a == "testing" && b == "coding")

def statusChainOk : String → List String → Bool
  | _, [] => true
  | prev, x :: xs => (prev == x || allowedEdge prev x) && statusChainOk x xs

/-! ## Coder agent (coder_agent.py: process_task)

The environment resolves the external calls: task fetch, `init_repo`,
`create_github_repo`, `plan_implementation` (its step numbers and fields;
an empty step list models both planning failure and a plan without steps,
triggering the single-step fallback), and `generate_step_code` per step
number.  Scaffold/commit/push/npm-install results do not influence the
persisted `status`, `completed_steps` or `iterations` and are folded into
the flow where they matter (`scaffolded` is set regardless of the scaffold
command's exit code). -/

structure CoderEnv where
  taskFound : Bool
  initRepoOk : Bool
  /-- `create_github_repo` result (`none` = failure) -/
  githubRepoUrl : Option String
  /-- `get_repo_url(task_id)` fallback -/
  fallbackRepoUrl : String
  plannedSteps : List Nat
  plannedTestCommand : Option String
  plannedScaffold : Option String
  /-- files produced by `generate_step_code` for a given step number -/
  genFiles : Nat → List String

structure CoderOutcome where
  state : SwarmState
  /-- `status` of each `_save_state` call, in order -/
  savedStatuses : List String
  /-- step numbers for which `generate_step_code` was invoked -/
  executed : List Nat
  action : String

/-- The fallback plan built when `not plan or not plan.get("steps")`. -/
def fallbackPlan : Plan :=
  { steps := [1], testCommand := some "echo 'No tests defined'", scaffoldCommand := none }

/-- The `for step in steps` loop: a step whose number is in
`completed_step_nums` is skipped; otherwise code is generated for it; when
generation yields no files the step is abandoned (`continue`) without
being recorded, else the step is appended to `completed_steps` and the
state saved.  Returns (final state, saved statuses, executed steps). -/
def coderStepLoop (env : CoderEnv) (completedNums : List Nat) :
    List Nat → SwarmState → SwarmState × List String × List Nat
  | [], s => (s, [], [])
  | n :: rest, s =>
    if n ∈ completedNums then coderStepLoop env completedNums rest s
    else if env.genFiles n = [] then
      let r := coderStepLoop env completedNums rest s
      (r.1, r.2.1, n :: r.2.2)
    else
      let s1 := { s with currentStep := n, completedSteps := s.completedSteps ++ [n] }
      let r := coderStepLoop env completedNums rest s1
      (r.1, s1.status :: r.2.1, n :: r.2.2)

/-- STEP 2 of `process_task`: reuse the existing plan or generate (and
save) a fresh one; `state["test_command"]` is set alongside a fresh plan.
Returns (state, saved statuses, plan in effect). -/
def coderPlanPhase (env : CoderEnv) (s0 : SwarmState) :
    SwarmState × List String × Plan :=
  match s0.plan with
  | some p => (s0, [], p)
  | none =>
    let p := if env.plannedSteps = [] then fallbackPlan
             else { steps := env.plannedSteps, testCommand := env.plannedTestCommand,
                    scaffoldCommand := env.plannedScaffold }
    let s' := { s0 with
      plan := some p, totalSteps := p.steps.length,
      testCommand := some (p.testCommand.getD "echo 'No tests defined'") }
    (s', [s'.status], p)

/-- STEP 3 of `process_task`: scaffold once when the plan carries a
scaffold command and the state is not yet marked `scaffolded`; the flag is
set and saved regardless of the scaffold command's exit code. -/
def coderScaffoldPhase (plan : Plan) (s1 : SwarmState) : SwarmState × List String :=
  match plan.scaffoldCommand with
  | some _ =>
    if s1.scaffolded then (s1, [])
    else
      let s' := { s1 with scaffolded := true }
      (s', [s'.status])
  | none => (s1, [])

/-- STEPS 2–7 of `process_task` once the guards have passed, starting from
the state with `repo_url` recorded: plan phase, scaffold phase, step loop,
then the final transition `status := "testing"` with the iteration counter
bumped, saved last. -/
def coderMain (env : CoderEnv) (s0 : SwarmState) : CoderOutcome :=
  let planPhase := coderPlanPhase env s0
  let s1 := planPhase.1
  let plan := planPhase.2.2
  let scaffoldPhase := coderScaffoldPhase plan s1
  let s2 := scaffoldPhase.1
  let stepPhase := coderStepLoop env s2.completedSteps plan.steps s2
  let s3 := stepPhase.1
  let s4 := { s3 with status := "testing", iterations := s3.iterations + 1 }
  { state := s4,
    savedStatuses := planPhase.2.1 ++ scaffoldPhase.2 ++ stepPhase.2.1 ++ [s4.status],
    executed := stepPhase.2.2,
    action := "coded" }

def coderProcessTask (s : SwarmState) (env : CoderEnv) : CoderOutcome :=
  if ¬ env.taskFound then
    { state := s, savedStatuses := [], executed := [], action := "error" }
  else if s.status ≠ "coding" then
    { state := s, savedStatuses := [], executed := [], action := "no_result" }
  else if ¬ env.initRepoOk then
    { state := s, savedStatuses := [], executed := [], action := "error" }
  else
    coderMain env { s with repoUrl := some (env.githubRepoUrl.getD env.fallbackRepoUrl) }

/-! ## Tester agent (tester_agent.py: process_task) -/

structure TesterEnv where
  stateFileExists : Bool
  packageJsonExists : Bool
  nodeModulesExists : Bool
  requirementsExists : Bool
  jestConfigExists : Bool
  /-- some of next/react/vite/@sveltejs\x2fkit among the package.json
  dependencies (false when the file is absent or fails to parse) -/
  isSiteProject : Bool
  /-- "build" among package.json scripts (false when parsing failed) -/
  hasBuildScript : Bool
  buildRc : Int
  buildOut : String
  testRc : Int
  testOut : String
  deriving DecidableEq, Repr

structure TesterOutcome where
  state : SwarmState
  savedStatuses : List String
  action : String
  passed : Option Bool
  ranNpmInstall : Bool
  ranPipInstall : Bool
  ranBuild : Bool
  ranTest : Bool
  deriving DecidableEq, Repr

/-- The jest fixup: `test_command.replace(...)` when `"npm test"` occurs in
it and `jest.config.js` exists. -/
def effectiveTestCommand (cmd : String) (jestExists : Bool) : String :=
  if strContains cmd "npm test" && jestExists then
    cmd.replace "npm test" "npm test -- --config jest.config.js"
  else cmd

def mkTestErrors (cmd : String) (rc : Int) (out : String) : String :=
  "Command: " ++ cmd ++ "\nExit code: " ++ toString rc ++ "\nOutput:\n" ++ lastChars 2000 out

def mkBuildErrors (out : String) : String :=
  "BUILD FAILED — fix these errors before tests can run:\n" ++ lastChars 2000 out

/-- The production-build gate: `pkg.exists()` and `is_site_project and
has_build_script` with a failing `npm run build`. -/
def buildFails (env : TesterEnv) : Bool :=
  env.packageJsonExists && env.isSiteProject && env.hasBuildScript && (env.buildRc != 0)

def testerProcessTask (s : SwarmState) (env : TesterEnv) : TesterOutcome :=
  if ¬ env.stateFileExists then
    { state := s, savedStatuses := [], action := "error", passed := none,
      ranNpmInstall := false, ranPipInstall := false, ranBuild := false, ranTest := false }
  else if s.status ≠ "testing" then
    { state := s, savedStatuses := [], action := "no_result", passed := none,
      ranNpmInstall := false, ranPipInstall := false, ranBuild := false, ranTest := false }
  else if noneOrEmpty s.testCommand then
    let s' := { s with status := "deploying" }
    { state := s', savedStatuses := [s'.status], action := "tested", passed := some true,
      ranNpmInstall := false, ranPipInstall := false, ranBuild := false, ranTest := false }
  else
    let ranNpm := env.packageJsonExists && !env.nodeModulesExists
    let ranPip := env.requirementsExists
    let cmd := effectiveTestCommand (s.testCommand.getD "") env.jestConfigExists
    if buildFails env then
      let s' := { s with status := "coding", testErrors := mkBuildErrors env.buildOut }
      { state := s', savedStatuses := [s'.status], action := "tested", passed := some false,
        ranNpmInstall := ranNpm, ranPipInstall := ranPip, ranBuild := true, ranTest := false }
    else
      let ranBuild := env.packageJsonExists && env.isSiteProject && env.hasBuildScript
      if env.testRc = 0 then
        let s' := { s with status := "deploying", testErrors := "" }
        { state := s', savedStatuses := [s'.status], action := "tested", passed := some true,
          ranNpmInstall := ranNpm, ranPipInstall := ranPip, ranBuild := ranBuild, ranTest := true }
      else
        let s' := { s with
          status := "coding", testErrors := mkTestErrors cmd env.testRc env.testOut }
        { state := s', savedStatuses := [s'.status], action := "tested", passed := some false,
          ranNpmInstall := ranNpm, ranPipInstall := ranPip, ranBuild := ranBuild, ranTest := true }

/-! ## Deploy agent (deploy_agent.py: process_task)

The Vercel deploy, smoke test and deliverable text influence remote calls
and auxiliary state fields only; the persisted `status` is written exactly
once, in the final save, as `"delivered"`.  An exception from
`submit_deliverable` that is not the already-submitted (409) case is
re-raised and caught by the outer handler before any state write. -/

structure DeployEnv where
  stateFileExists : Bool
  submitRaises : Bool
  submitErr409 : Bool
  deriving DecidableEq, Repr

structure DeployOutcome where
  state : SwarmState
  savedStatuses : List String
  action : String
  deriving DecidableEq, Repr

def deployProcessTask (s : SwarmState) (env : DeployEnv) : DeployOutcome :=
  if ¬ env.stateFileExists then
    { state := s, savedStatuses := [], action := "error" }
  else if s.status ≠ "deploying" then
    { state := s, savedStatuses := [], action := "no_result" }
  else if env.submitRaises && !env.submitErr409 then
    { state := s, savedStatuses := [], action := "error" }
  else
    let s' := { s with status := "delivered" }
    { state := s', savedStatuses := [s'.status], action := "deployed" }

/-! ## Progress log (base_agent.py write_progress vs coder_agent.py
write_progress)

The progress file is modelled at line granularity: each `f.write(json.dumps
(step) + "\n")` appends one line.  `json.dumps` output of a step dict is a
single non-blank line, modelled by `encodeStep`. -/

structure ProgressArgs where
  phase : String
  title : String
  description : String
  detail : String
  deriving DecidableEq, Repr

structure ProgressStep where
  index : Nat
  phase : String
  title : String
  description : String
  detail : String
  deriving DecidableEq, Repr

/-- Python truthiness of `l.strip()`: the line has a non-whitespace char. -/
def isNonBlank (l : String) : Bool := l.data.any (fun c => !c.isWhitespace)

def encodeStep (st : ProgressStep) : String :=
  "\x7b\"index\": " ++ toString st.index ++ ", \"phase\": \"" ++ st.phase ++
  "\", \"title\": \"" ++ st.title ++ "\", \"description\": \"" ++ st.description ++
  "\", \"detail\": \"" ++ st.detail ++ "\"\x7d"

namespace BaseAgent

/-- base_agent.py `write_progress`: the index is
`len([l for l in content.split("\n") if l.strip()])` — the count of
non-blank lines of the current file.  Returns the written step and the new
file. -/
def write_progress (file : List String) (a : ProgressArgs) : ProgressStep × List String :=
  let idx := (file.filter isNonBlank).length
  let st : ProgressStep := { index := idx, phase := a.phase, title := a.title,
                             description := a.description, detail := a.detail }
  (st, file ++ [encodeStep st])

end BaseAgent

namespace CoderAgent

/-- coder_agent.py `write_progress`: the index is
`_progress_index.get(task_id, 0)` — an in-memory, per-process counter,
bumped on every call and never read from the file.  Returns the written
step, the updated counter, and the new file. -/
def write_progress (counter : Nat) (file : List String) (a : ProgressArgs) :
    ProgressStep × Nat × List String :=
  let idx := counter
  let st : ProgressStep := { index := idx, phase := a.phase, title := a.title,
                             description := a.description, detail := a.detail }
  (st, idx + 1, file ++ [encodeStep st])

end CoderAgent

/-! ## Concrete instances used by counterexamples and witnesses -/

/-- A 500 response with a JSON content type and a parseable body. -/
def r500 : HttpResponse :=
  { status := 500, contentTypeJson := true, jsonParses := true, textBlank := false }

/-- An environment in which every attempt yields the 500 response. -/
def all5xx : Nat → Outcome := fun _ => Outcome.response r500

/-! ## Theorems -/

/-- C5: for an acquire call whose lock record is readable, an age strictly
below the 300-second staleness threshold blocks (`acquire` returns false
without writing), and an age above the threshold overrides the record
(`acquire` writes a fresh record and returns true). -/
theorem acquire_lock_staleness (env : LockEnv)
    (hE : env.lockExists = true) (hR : env.readOk = true) (hW : env.writeOk = true) :
    (env.now - env.lockTimestamp < 300 →
      acquire_lock env = { result := Except.ok false, wroteLock := false }) ∧
    (300 < env.now - env.lockTimestamp →
      acquire_lock env = { result := Except.ok true, wroteLock := true }) := by
  constructor
  · intro h
    simp [acquire_lock, hE, hR, LOCK_TIMEOUT, h]
  · intro h
    have h' : ¬ (env.now - env.lockTimestamp < LOCK_TIMEOUT) := by
      simp only [LOCK_TIMEOUT]
      omega
    simp [acquire_lock, takeLock, hE, hR, hW, h']

/-- C5 witness: a lock written 301 seconds ago is overridden; one written
100 seconds ago blocks. -/
theorem acquire_lock_staleness_witness :
    acquire_lock { lockExists := true, readOk := true, lockTimestamp := 0,
                   now := 301, writeOk := true }
      = { result := Except.ok true, wroteLock := true } ∧
    acquire_lock { lockExists := true, readOk := true, lockTimestamp := 0,
                   now := 100, writeOk := true }
      = { result := Except.ok false, wroteLock := false } :=
  ⟨(acquire_lock_staleness _ rfl rfl rfl).2 (by decide),
   (acquire_lock_staleness _ rfl rfl rfl).1 (by decide)⟩

/-- C6 counterexample: when the existing lock record cannot be read or
parsed, `acquire_lock` does NOT fail closed — the exception is swallowed
and the call takes the lock and returns true. -/
theorem acquire_lock_read_error_cex :
    (acquire_lock { lockExists := true, readOk := false, lockTimestamp := 0,
                    now := 0, writeOk := true }).result = Except.ok true ∧
    (acquire_lock { lockExists := true, readOk := false, lockTimestamp := 0,
                    now := 0, writeOk := true }).wroteLock = true :=
  ⟨rfl, rfl⟩

/-- C6 amended: an I/O or parse error while reading an existing lock record
is swallowed (`except Exception: pass`) and `acquire` proceeds to take the
lock — fail open, not fail closed: the record is overwritten and the call
returns true (assuming the final write itself succeeds). -/
theorem acquire_lock_read_error_fails_open (env : LockEnv)
    (hE : env.lockExists = true) (hR : env.readOk = false) (hW : env.writeOk = true) :
    acquire_lock env = { result := Except.ok true, wroteLock := true } := by
  simp [acquire_lock, takeLock, hE, hR, hW]

/-- C6 amended witness. -/
theorem acquire_lock_read_error_fails_open_witness :
    acquire_lock { lockExists := true, readOk := false, lockTimestamp := 5,
                   now := 7, writeOk := true }
      = { result := Except.ok true, wroteLock := true } :=
  acquire_lock_read_error_fails_open _ rfl rfl rfl

/-- Auxiliary: in `_request_with_retry`, `_reconnect` is called exactly
once per transient-transport retry and never otherwise. -/
theorem requestGo_reconnects_eq_transientRetries (outcomes : Nat → Outcome) :
    ∀ rem le att, (requestGo outcomes le att rem).reconnects
      = (requestGo outcomes le att rem).transientRetries := by
  intro rem
  induction rem with
  | zero => intro le att; simp [requestGo]
  | succ r ih =>
    intro le att
    simp only [requestGo]
    cases h : outcomes att with
    | transientErr =>
      by_cases hr : r = 0
      · subst hr; simp [ih]
      · simp [hr, ih]
    | response resp =>
      by_cases h5 : 500 ≤ resp.status
      · by_cases hr : r = 0
        · subst hr; simp [h5, ih]
        · simp [h5, hr, ih]
      · simp [h5]
    | genericErr => simp

/-- C4 amended: the connection is discarded and recreated before a retry
exactly when the failed attempt was a transient transport error; a retry
after a 5xx response reuses the existing connection (`_reconnect` is only
called in the transient-errors handler). -/
theorem reconnect_only_on_transient_retries (outcomes : Nat → Outcome) :
    (requestWithRetry outcomes).reconnects = (requestWithRetry outcomes).transientRetries :=
  requestGo_reconnects_eq_transientRetries outcomes MAX_RETRIES none 0

/-- C4 counterexample: a run of three 5xx responses performs two retries
but zero `_reconnect` calls, refuting "the connection is discarded and
recreated before every retry". -/
theorem server_retry_no_reconnect_cex :
    (requestWithRetry all5xx).serverRetries = 2 ∧
    (requestWithRetry all5xx).reconnects = 0 :=
  ⟨rfl, rfl⟩

/-- C2 counterexample: when all three attempts return a 5xx response, the
exhausted request does NOT raise the last error — the final 5xx response's
parsed body is returned as the result. -/
theorem retry_exhausted_5xx_returns_cex :
    (requestWithRetry all5xx).result = ReqResult.returned (RetVal.parsedBody r500) ∧
    isRaised (requestWithRetry all5xx).result = false :=
  ⟨rfl, rfl⟩

/-- C2 amended: a 4xx response is never retried and its parsed body is
returned immediately from the first attempt; transient transport failures
are retried up to the 3-attempt ceiling and then the last error is raised;
5xx responses are retried up to the same ceiling, but after the final
attempt the 5xx body is returned as the result (it is not raised). -/
theorem retry_classification (f4 ft f5 : Nat → Outcome) (r q : HttpResponse)
    (h40 : f4 0 = Outcome.response r) (h4a : 400 ≤ r.status) (h4b : r.status < 500)
    (h4c : r.contentTypeJson = true) (h4d : r.jsonParses = true)
    (ht : ∀ i, i < 3 → ft i = Outcome.transientErr)
    (h5 : ∀ i, i < 3 → f5 i = Outcome.response q) (h5a : 500 ≤ q.status)
    (h5b : q.jsonParses = true) :
    (requestWithRetry f4).result = ReqResult.returned (RetVal.parsedBody r) ∧
    (requestWithRetry f4).attempts = 1 ∧
    (requestWithRetry ft).result = ReqResult.raised RaisedErr.transient ∧
    (requestWithRetry ft).attempts = 3 ∧
    (requestWithRetry f5).result = ReqResult.returned (RetVal.parsedBody q) ∧
    (requestWithRetry f5).attempts = 3 := by
  have hn5 : ¬ (500 ≤ r.status) := by omega
  have ht0 := ht 0 (by omega)
  have ht1 := ht 1 (by omega)
  have ht2 := ht 2 (by omega)
  have h50 := h5 0 (by omega)
  have h51 := h5 1 (by omega)
  have h52 := h5 2 (by omega)
  refine ⟨?_, ?_, ?_, ?_, ?_, ?_⟩ <;>
    simp [requestWithRetry, MAX_RETRIES, requestGo, handleResponse,
          h40, hn5, h4c, h4d, ht0, ht1, ht2, h50, h51, h52, h5a, h5b]

/-- C2 amended witness: a 404, an all-transient run, and an all-5xx run. -/
theorem retry_classification_witness :
    (requestWithRetry (fun _ => Outcome.response
        { status := 404, contentTypeJson := true, jsonParses := true,
          textBlank := false })).result
      = ReqResult.returned (RetVal.parsedBody
        { status := 404, contentTypeJson := true, jsonParses := true,
          textBlank := false }) ∧
    (requestWithRetry (fun _ => Outcome.transientErr)).result
      = ReqResult.raised RaisedErr.transient ∧
    (requestWithRetry all5xx).attempts = 3 :=
  ⟨(retry_classification (fun _ => Outcome.response
        { status := 404, contentTypeJson := true, jsonParses := true, textBlank := false })
      (fun _ => Outcome.transientErr) all5xx
      { status := 404, contentTypeJson := true, jsonParses := true, textBlank := false }
      r500 rfl (by decide) (by decide) rfl rfl
      (fun i _ => rfl) (fun i _ => rfl) (by decide) rfl).1,
   (retry_classification (fun _ => Outcome.response
        { status := 404, contentTypeJson := true, jsonParses := true, textBlank := false })
      (fun _ => Outcome.transientErr) all5xx
      { status := 404, contentTypeJson := true, jsonParses := true, textBlank := false }
      r500 rfl (by decide) (by decide) rfl rfl
      (fun i _ => rfl) (fun i _ => rfl) (by decide) rfl).2.2.1,
   (retry_classification (fun _ => Outcome.response
        { status := 404, contentTypeJson := true, jsonParses := true, textBlank := false })
      (fun _ => Outcome.transientErr) all5xx
      { status := 404, contentTypeJson := true, jsonParses := true, textBlank := false }
      r500 rfl (by decide) (by decide) rfl rfl
      (fun i _ => rfl) (fun i _ => rfl) (by decide) rfl).2.2.2.2.2⟩

/-- Auxiliary: exact dispatch count and outcome of the revision-tier loop:
one dispatch per scanned task up to and including the first task whose
revision worker reports `"revised"`; when none does, every task is
dispatched for and the tier reports no dispatch-success. -/
theorem revisionsLoop_spec (ts : List TaskSummary) :
    (revisionsLoop ts).2 = ts.any (fun t => t.revisionResult == "revised") ∧
    (revisionsLoop ts).1 =
      (if ts.any (fun t => t.revisionResult == "revised")
       then (ts.takeWhile (fun t => t.revisionResult != "revised")).length + 1
       else ts.length) := by
  induction ts with
  | nil => simp [revisionsLoop]
  | cons t ts ih =>
    by_cases h : t.revisionResult = "revised"
    · simp [revisionsLoop, h]
    · have hb : (t.revisionResult == "revised") = false := by
        simp [h]
      have hb' : (t.revisionResult != "revised") = true := by
        simp [bne, hb]
      constructor
      · simp [revisionsLoop, h, hb, ih.1]
      · simp only [revisionsLoop, List.any_cons, hb, Bool.false_or,
                   List.takeWhile_cons, hb', if_true, List.length_cons]
        rw [if_neg (by simp [h]), ih.2]
        split <;> simp

/-- A tick in which the agent owns two `in_progress` tasks and both
revision workers come back without `"revised"` (here: `"no_result"`);
nothing else is dispatchable. -/
def tickCexEnv : TickEnv :=
  { myTasksFetchOk := true,
    myTasks := [{ status := "in_progress", revisionResult := "no_result" },
                { status := "in_progress", revisionResult := "no_result" }],
    claimsFetchOk := true,
    claims := [],
    scoutFetchOk := true,
    atCapacity := true,
    scoutResult := "none" }

/-- C3 counterexample: in `tickCexEnv` a single tick runs TWO sub-agent
invocations — the revision tier does not end the tick after the first
in_progress task regardless of outcome; it moves on to the next task
whenever the worker's action is not `"revised"`. -/
theorem tick_multiple_dispatch_cex :
    tickDispatches tickCexEnv = 2 ∧ ¬ tickDispatches tickCexEnv ≤ 1 :=
  ⟨rfl, by decide⟩

/-- C3 amended: in the revision tier one worker is dispatched per scanned
`in_progress` task, stopping (and ending the tick) exactly when a worker
reports `"revised"`; a tick may therefore dispatch several sub-agents.
When the tier reports a dispatch-success, the tick performs exactly the
revision tier's dispatches and no more. -/
theorem revision_tier_dispatch (env : TickEnv) (hF : env.myTasksFetchOk = true) :
    ((check_revisions env).2
       = (env.myTasks.filter (fun t => t.status == "in_progress")).any
           (fun t => t.revisionResult == "revised")) ∧
    ((check_revisions env).1
       = (if (env.myTasks.filter (fun t => t.status == "in_progress")).any
               (fun t => t.revisionResult == "revised")
          then ((env.myTasks.filter (fun t => t.status == "in_progress")).takeWhile
                  (fun t => t.revisionResult != "revised")).length + 1
          else (env.myTasks.filter (fun t => t.status == "in_progress")).length)) ∧
    ((check_revisions env).2 = true → tickDispatches env = (check_revisions env).1) := by
  refine ⟨?_, ?_, ?_⟩
  · simpa [check_revisions, hF] using
      (revisionsLoop_spec (env.myTasks.filter (fun t => t.status == "in_progress"))).1
  · simpa [check_revisions, hF] using
      (revisionsLoop_spec (env.myTasks.filter (fun t => t.status == "in_progress"))).2
  · intro h
    simp [tickDispatches, h]

/-- A tick with a single `in_progress` task whose revision worker reports
`"revised"`. -/
def revisedTickEnv : TickEnv :=
  { myTasksFetchOk := true,
    myTasks := [{ status := "in_progress", revisionResult := "revised" }],
    claimsFetchOk := true,
    claims := [],
    scoutFetchOk := true,
    atCapacity := false,
    scoutResult := "none" }

/-- C3 amended witness: one in_progress task whose revision worker reports
`"revised"` → the revision tier succeeds after exactly one dispatch and
the tick dispatches exactly once. -/
theorem revision_tier_dispatch_witness :
    (check_revisions revisedTickEnv).1 = 1 ∧ tickDispatches revisedTickEnv = 1 := by
  refine ⟨?_, ?_⟩
  · rw [(revision_tier_dispatch revisedTickEnv rfl).2.1]
    decide
  · rw [(revision_tier_dispatch revisedTickEnv rfl).2.2 (by decide),
        (revision_tier_dispatch revisedTickEnv rfl).2.1]
    decide

/-- Auxiliary: the coder's step loop never changes the persisted `status`,
and every state it saves carries the status it started from. -/
theorem coderStepLoop_status (env : CoderEnv) (c : List Nat) :
    ∀ steps s, ((coderStepLoop env c steps s).1.status = s.status) ∧
      (∀ x ∈ (coderStepLoop env c steps s).2.1, x = s.status) := by
  intro steps
  induction steps with
  | nil => intro s; simp [coderStepLoop]
  | cons n rest ih =>
    intro s
    by_cases hc : n ∈ c
    · simpa [coderStepLoop, hc] using ih s
    · by_cases hg : env.genFiles n = []
      · simpa [coderStepLoop, hc, hg] using ih s
      · have h1 := ih { s with currentStep := n, completedSteps := s.completedSteps ++ [n] }
        constructor
        · simpa [coderStepLoop, hc, hg] using h1.1
        · intro x hx
          simp only [coderStepLoop, if_neg hc, if_neg hg, List.mem_cons] at hx
          rcases hx with hx | hx
          · simpa using hx
          · simpa using h1.2 x hx

/-- Auxiliary: the step numbers the coder generates code for are exactly
the plan steps whose number is not in the completed set. -/
theorem coderStepLoop_executed (env : CoderEnv) (c : List Nat) :
    ∀ steps s, (coderStepLoop env c steps s).2.2
      = steps.filter (fun n => decide (n ∉ c)) := by
  intro steps
  induction steps with
  | nil => intro s; simp [coderStepLoop]
  | cons n rest ih =>
    intro s
    by_cases hc : n ∈ c
    · simp [coderStepLoop, hc, ih]
    · by_cases hg : env.genFiles n = [] <;> simp [coderStepLoop, hc, hg, ih]

/-- Auxiliary: the plan phase keeps `status` and `completed_steps`
unchanged, and any state it saves carries the incoming status. -/
theorem coderPlanPhase_status (env : CoderEnv) (s0 : SwarmState) :
    ((coderPlanPhase env s0).1.status = s0.status) ∧
    (∀ x ∈ (coderPlanPhase env s0).2.1, x = s0.status) ∧
    ((coderPlanPhase env s0).1.completedSteps = s0.completedSteps) := by
  cases hp : s0.plan <;> simp [coderPlanPhase, hp]

/-- Auxiliary: with an existing plan the plan phase is a no-write no-op
returning that plan. -/
theorem coderPlanPhase_existing (env : CoderEnv) (s0 : SwarmState) (p : Plan)
    (hp : s0.plan = some p) : coderPlanPhase env s0 = (s0, [], p) := by
  simp [coderPlanPhase, hp]

/-- Auxiliary: the scaffold phase keeps `status` and `completed_steps`
unchanged, and any state it saves carries the incoming status. -/
theorem coderScaffoldPhase_status (plan : Plan) (s1 : SwarmState) :
    ((coderScaffoldPhase plan s1).1.status = s1.status) ∧
    (∀ x ∈ (coderScaffoldPhase plan s1).2, x = s1.status) ∧
    ((coderScaffoldPhase plan s1).1.completedSteps = s1.completedSteps) := by
  cases hs : plan.scaffoldCommand
  · simp [coderScaffoldPhase, hs]
  · by_cases hf : s1.scaffolded <;> simp [coderScaffoldPhase, hs, hf]

/-- Auxiliary: a status chain whose prefix repeats the start status and
then takes one step is valid exactly when the step is a repeat or an
allowed edge. -/
theorem statusChainOk_const_append (p q : String) :
    ∀ l : List String, (∀ x ∈ l, x = p) →
      statusChainOk p (l ++ [q]) = (p == q || allowedEdge p q) := by
  intro l
  induction l with
  | nil => intro _; simp [statusChainOk]
  | cons a as ih =>
    intro h
    have ha : a = p := h a (by simp)
    subst ha
    simp [statusChainOk, ih (fun x hx => h x (by simp [hx]))]

/-- Auxiliary: on the coder's main path every intermediate save repeats
the loaded `"coding"` status and the single final save writes
`"testing"`. -/
theorem coderMain_statusChain (env : CoderEnv) (s0 : SwarmState)
    (h : s0.status = "coding") :
    statusChainOk s0.status (coderMain env s0).savedStatuses = true := by
  have hP := coderPlanPhase_status env s0
  have hSc := coderScaffoldPhase_status (coderPlanPhase env s0).2.2 (coderPlanPhase env s0).1
  have hL := coderStepLoop_status env
    ((coderScaffoldPhase (coderPlanPhase env s0).2.2 (coderPlanPhase env s0).1).1.completedSteps)
    (coderPlanPhase env s0).2.2.steps
    ((coderScaffoldPhase (coderPlanPhase env s0).2.2 (coderPlanPhase env s0).1).1)
  have hkey : ∀ x ∈ (coderPlanPhase env s0).2.1 ++
      ((coderScaffoldPhase (coderPlanPhase env s0).2.2 (coderPlanPhase env s0).1).2 ++
        (coderStepLoop env
          ((coderScaffoldPhase (coderPlanPhase env s0).2.2
              (coderPlanPhase env s0).1).1.completedSteps)
          (coderPlanPhase env s0).2.2.steps
          ((coderScaffoldPhase (coderPlanPhase env s0).2.2
              (coderPlanPhase env s0).1).1)).2.1),
      x = s0.status := by
    intro x hx
    rcases List.mem_append.mp hx with hx | hx
    · exact hP.2.1 x hx
    · rcases List.mem_append.mp hx with hx | hx
      · exact (hSc.2.1 x hx).trans hP.1
      · exact (hL.2 x hx).trans (hSc.1.trans hP.1)
  show statusChainOk s0.status
      ((coderPlanPhase env s0).2.1 ++
        (coderScaffoldPhase (coderPlanPhase env s0).2.2 (coderPlanPhase env s0).1).2 ++
        (coderStepLoop env
          ((coderScaffoldPhase (coderPlanPhase env s0).2.2
              (coderPlanPhase env s0).1).1.completedSteps)
          (coderPlanPhase env s0).2.2.steps
          ((coderScaffoldPhase (coderPlanPhase env s0).2.2
              (coderPlanPhase env s0).1).1)).2.1 ++
        ["testing"]) = true
  have hfin := statusChainOk_const_append s0.status "testing"
    ((coderPlanPhase env s0).2.1 ++
      ((coderScaffoldPhase (coderPlanPhase env s0).2.2 (coderPlanPhase env s0).1).2 ++
        (coderStepLoop env
          ((coderScaffoldPhase (coderPlanPhase env s0).2.2
              (coderPlanPhase env s0).1).1.completedSteps)
          (coderPlanPhase env s0).2.2.steps
          ((coderScaffoldPhase (coderPlanPhase env s0).2.2
              (coderPlanPhase env s0).1).1)).2.1)) hkey
  simp only [List.append_assoc] at hfin ⊢
  rw [hfin, h]
  decide

/-- Auxiliary: the coder only ever rewrites a persisted status along
`coding → coding` (intermediate saves) and `coding → testing` (final
save); with any other loaded stage it saves nothing. -/
theorem coder_statusChain (s : SwarmState) (env : CoderEnv) :
    statusChainOk s.status (coderProcessTask s env).savedStatuses = true := by
  by_cases hT : env.taskFound
  · by_cases hS : s.status = "coding"
    · by_cases hI : env.initRepoOk
      · have := coderMain_statusChain env
          { s with repoUrl := some (env.githubRepoUrl.getD env.fallbackRepoUrl) }
          (by simpa using hS)
        simpa [coderProcessTask, hT, hS, hI] using this
      · simp [coderProcessTask, hT, hS, hI, statusChainOk]
    · simp [coderProcessTask, hT, hS, statusChainOk]
  · simp [coderProcessTask, hT, statusChainOk]

/-- Auxiliary: the tester writes exactly one status — `deploying` on a
pass (or missing test command) and `coding` on a failing build or test —
both allowed edges from `testing`. -/
theorem tester_statusChain (s : SwarmState) (env : TesterEnv) :
    statusChainOk s.status (testerProcessTask s env).savedStatuses = true := by
  by_cases hE : env.stateFileExists
  · by_cases hS : s.status = "testing"
    · by_cases hN : noneOrEmpty s.testCommand
      · have hsv : (testerProcessTask s env).savedStatuses = ["deploying"] := by
          simp [testerProcessTask, hE, hS, hN]
        rw [hsv, hS]
        decide
      · by_cases hB : buildFails env
        · have hsv : (testerProcessTask s env).savedStatuses = ["coding"] := by
            simp [testerProcessTask, hE, hS, hN, hB]
          rw [hsv, hS]
          decide
        · by_cases hR : env.testRc = 0
          · have hsv : (testerProcessTask s env).savedStatuses = ["deploying"] := by
              simp [testerProcessTask, hE, hS, hN, hB, hR]
            rw [hsv, hS]
            decide
          · have hsv : (testerProcessTask s env).savedStatuses = ["coding"] := by
              simp [testerProcessTask, hE, hS, hN, hB, hR]
            rw [hsv, hS]
            decide
    · simp [testerProcessTask, hE, hS, statusChainOk]
  · simp [testerProcessTask, hE, statusChainOk]

/-- Auxiliary: the deployer writes exactly one status, `delivered`, an
allowed edge from `deploying`; with any other loaded stage (or a failed
deliverable submission) it saves nothing. -/
theorem deploy_statusChain (s : SwarmState) (env : DeployEnv) :
    statusChainOk s.status (deployProcessTask s env).savedStatuses = true := by
  by_cases hE : env.stateFileExists
  · by_cases hS : s.status = "deploying"
    · by_cases hX : env.submitRaises && !env.submitErr409
      · simp [deployProcessTask, hE, hS, hX, statusChainOk]
      · have hsv : (deployProcessTask s env).savedStatuses = ["delivered"] := by
          simp [deployProcessTask, hE, hS, hX]
        rw [hsv, hS]
        decide
    · simp [deployProcessTask, hE, hS, statusChainOk]
  · simp [deployProcessTask, hE, statusChainOk]

/-- Auxiliary: the coder is a no-op on the persisted record when the
loaded stage is not `coding`. -/
theorem coder_gate (s : SwarmState) (env : CoderEnv) (h : s.status ≠ "coding") :
    (coderProcessTask s env).state = s ∧ (coderProcessTask s env).savedStatuses = [] := by
  by_cases hT : env.taskFound <;> simp [coderProcessTask, hT, h]

/-- Auxiliary: the tester is a no-op on the persisted record when the
loaded stage is not `testing`. -/
theorem tester_gate (s : SwarmState) (env : TesterEnv) (h : s.status ≠ "testing") :
    (testerProcessTask s env).state = s ∧ (testerProcessTask s env).savedStatuses = [] := by
  by_cases hE : env.stateFileExists <;> simp [testerProcessTask, hE, h]

/-- Auxiliary: the deployer is a no-op on the persisted record when the
loaded stage is not `deploying`. -/
theorem deploy_gate (s : SwarmState) (env : DeployEnv) (h : s.status ≠ "deploying") :
    (deployProcessTask s env).state = s ∧ (deployProcessTask s env).savedStatuses = [] := by
  by_cases hE : env.stateFileExists <;> simp [deployProcessTask, hE, h]

/-- C1: every status any of the three stage workers persists follows the
loaded status along the allowed pipeline edges `coding→testing`,
`testing→deploying`, `deploying→delivered` and the back-edge
`testing→coding` (intermediate saves repeat the current status); and each
worker returns without mutating the record when the loaded stage is not
the one it handles. -/
theorem stage_transitions_allowed (s : SwarmState)
    (envC : CoderEnv) (envT : TesterEnv) (envD : DeployEnv) :
    statusChainOk s.status (coderProcessTask s envC).savedStatuses = true ∧
    statusChainOk s.status (testerProcessTask s envT).savedStatuses = true ∧
    statusChainOk s.status (deployProcessTask s envD).savedStatuses = true ∧
    (s.status ≠ "coding" →
      (coderProcessTask s envC).state = s ∧ (coderProcessTask s envC).savedStatuses = []) ∧
    (s.status ≠ "testing" →
      (testerProcessTask s envT).state = s ∧ (testerProcessTask s envT).savedStatuses = []) ∧
    (s.status ≠ "deploying" →
      (deployProcessTask s envD).state = s ∧ (deployProcessTask s envD).savedStatuses = []) :=
  ⟨coder_statusChain s envC, tester_statusChain s envT, deploy_statusChain s envD,
   coder_gate s envC, tester_gate s envT, deploy_gate s envD⟩

/-- A persisted record whose pipeline has already finished. -/
def exStateDelivered : SwarmState :=
  { status := "delivered", currentStep := 0, totalSteps := 0, completedSteps := [],
    testErrors := "", iterations := 0, testCommand := none, plan := none,
    scaffolded := false, repoUrl := none }

/-- A coder environment whose external calls all succeed and whose code
generation yields nothing. -/
def exCoderEnv : CoderEnv :=
  { taskFound := true, initRepoOk := true, githubRepoUrl := none,
    fallbackRepoUrl := "https://github.com/agent/task-7", plannedSteps := [],
    plannedTestCommand := none, plannedScaffold := none, genFiles := fun _ => [] }

/-- A tester environment with no package/requirements files and a passing
test run. -/
def exTesterEnvPass : TesterEnv :=
  { stateFileExists := true, packageJsonExists := false, nodeModulesExists := false,
    requirementsExists := false, jestConfigExists := false, isSiteProject := false,
    hasBuildScript := false, buildRc := 0, buildOut := "", testRc := 0, testOut := "ok" }

/-- A deploy environment whose deliverable submission succeeds. -/
def exDeployEnv : DeployEnv :=
  { stateFileExists := true, submitRaises := false, submitErr409 := false }

/-- C1 witness: on a `delivered` record every worker's saved-status chain
is trivially valid and every worker leaves the record untouched. -/
theorem stage_transitions_allowed_witness :
    statusChainOk exStateDelivered.status
      (coderProcessTask exStateDelivered exCoderEnv).savedStatuses = true ∧
    (coderProcessTask exStateDelivered exCoderEnv).state = exStateDelivered ∧
    (testerProcessTask exStateDelivered exTesterEnvPass).state = exStateDelivered ∧
    (deployProcessTask exStateDelivered exDeployEnv).state = exStateDelivered :=
  ⟨(stage_transitions_allowed exStateDelivered exCoderEnv exTesterEnvPass exDeployEnv).1,
   ((stage_transitions_allowed exStateDelivered exCoderEnv exTesterEnvPass
       exDeployEnv).2.2.2.1 (by decide)).1,
   ((stage_transitions_allowed exStateDelivered exCoderEnv exTesterEnvPass
       exDeployEnv).2.2.2.2.1 (by decide)).1,
   ((stage_transitions_allowed exStateDelivered exCoderEnv exTesterEnvPass
       exDeployEnv).2.2.2.2.2 (by decide)).1⟩

/-- C9: when the coder resumes a task with an existing plan, it invokes
code generation exactly for the plan steps whose number is not in the
recorded completed set, and never for a completed step. -/
theorem coderMain_executed (env : CoderEnv) (t : SwarmState) (p : Plan)
    (hp : t.plan = some p) :
    (coderMain env t).executed
      = p.steps.filter (fun n => decide (n ∉ t.completedSteps)) := by
  have hplan := coderPlanPhase_existing env t p hp
  have hscc := (coderScaffoldPhase_status p t).2.2
  simp [coderMain, hplan, coderStepLoop_executed, hscc]

theorem coder_resume_executes_only_remaining (s : SwarmState) (env : CoderEnv) (p : Plan)
    (hT : env.taskFound = true) (hI : env.initRepoOk = true)
    (hS : s.status = "coding") (hP : s.plan = some p) :
    (coderProcessTask s env).executed
      = p.steps.filter (fun n => decide (n ∉ s.completedSteps)) ∧
    ∀ n ∈ (coderProcessTask s env).executed, n ∉ s.completedSteps := by
  have hp0 : ({ s with
      repoUrl := some (env.githubRepoUrl.getD env.fallbackRepoUrl) } : SwarmState).plan
      = some p := by simpa using hP
  have hred : coderProcessTask s env
      = coderMain env { s with
          repoUrl := some (env.githubRepoUrl.getD env.fallbackRepoUrl) } := by
    simp only [coderProcessTask]
    rw [if_neg (show ¬ ¬ env.taskFound = true by simp [hT]),
        if_neg (show ¬ s.status ≠ "coding" by simp [hS]),
        if_neg (show ¬ ¬ env.initRepoOk = true by simp [hI])]
  have h1 : (coderProcessTask s env).executed
      = p.steps.filter (fun n => decide (n ∉ s.completedSteps)) := by
    rw [hred, coderMain_executed env _ p hp0]
  refine ⟨h1, ?_⟩
  intro n hn
  rw [h1] at hn
  exact of_decide_eq_true (List.mem_filter.mp hn).2

/-- The plan of a task resumed with steps 1 and 2 of 3 complete. -/
def exResumePlan : Plan :=
  { steps := [1, 2, 3], testCommand := some "npm test", scaffoldCommand := none }

/-- A coding-stage record with plan steps 1 and 2 recorded complete. -/
def exResumeState : SwarmState :=
  { status := "coding", currentStep := 2, totalSteps := 3, completedSteps := [1, 2],
    testErrors := "", iterations := 0, testCommand := some "npm test",
    plan := some exResumePlan, scaffolded := false, repoUrl := none }

/-- C9 witness: resuming with 2 of 3 steps complete generates code only
for step 3. -/
theorem coder_resume_executes_only_remaining_witness :
    (coderProcessTask exResumeState exCoderEnv).executed = [3] :=
  ((coder_resume_executes_only_remaining exResumeState exCoderEnv exResumePlan
      rfl rfl rfl rfl).1).trans (by decide)

/-- C10: a testing-stage record with a missing or empty test command is
advanced straight to `deploying` with a passed result, with no dependency
install, no build and no test execution. -/
theorem tester_no_test_command (s : SwarmState) (env : TesterEnv)
    (hE : env.stateFileExists = true) (hS : s.status = "testing")
    (hN : noneOrEmpty s.testCommand = true) :
    (testerProcessTask s env).state.status = "deploying" ∧
    (testerProcessTask s env).action = "tested" ∧
    (testerProcessTask s env).passed = some true ∧
    (testerProcessTask s env).ranNpmInstall = false ∧
    (testerProcessTask s env).ranPipInstall = false ∧
    (testerProcessTask s env).ranBuild = false ∧
    (testerProcessTask s env).ranTest = false := by
  refine ⟨?_, ?_, ?_, ?_, ?_, ?_, ?_⟩ <;> simp [testerProcessTask, hE, hS, hN]

/-- A testing-stage record with no recorded test command. -/
def exNoCmdState : SwarmState :=
  { status := "testing", currentStep := 0, totalSteps := 0, completedSteps := [],
    testErrors := "", iterations := 1, testCommand := none, plan := none,
    scaffolded := false, repoUrl := none }

/-- C10 witness. -/
theorem tester_no_test_command_witness :
    (testerProcessTask exNoCmdState exTesterEnvPass).state.status = "deploying" ∧
    (testerProcessTask exNoCmdState exTesterEnvPass).passed = some true ∧
    (testerProcessTask exNoCmdState exTesterEnvPass).ranTest = false :=
  ⟨(tester_no_test_command exNoCmdState exTesterEnvPass rfl rfl rfl).1,
   (tester_no_test_command exNoCmdState exTesterEnvPass rfl rfl rfl).2.2.1,
   (tester_no_test_command exNoCmdState exTesterEnvPass rfl rfl rfl).2.2.2.2.2.2⟩

/-- A testing-stage record about to run `pytest`, on its first iteration. -/
def exTestState : SwarmState :=
  { status := "testing", currentStep := 1, totalSteps := 1, completedSteps := [1],
    testErrors := "", iterations := 0, testCommand := some "pytest", plan := none,
    scaffolded := true, repoUrl := none }

/-- A tester environment whose test run exits with code 1. -/
def exTesterEnvFail : TesterEnv :=
  { stateFileExists := true, packageJsonExists := false, nodeModulesExists := false,
    requirementsExists := false, jestConfigExists := false, isSiteProject := false,
    hasBuildScript := false, buildRc := 0, buildOut := "",
    testRc := 1, testOut := "AssertionError: expected 2, got 3" }

/-- C7 counterexample: a failing test run (exit code 1) moves the record
back to `coding` but leaves the persisted iteration counter UNCHANGED —
the tester never touches `iterations` (it is the coder that increments it
on the next coding→testing pass). -/
theorem tester_fail_iteration_cex :
    (testerProcessTask exTestState exTesterEnvFail).state.status = "coding" ∧
    exTestState.iterations = 0 ∧
    (testerProcessTask exTestState exTesterEnvFail).state.iterations = 0 :=
  ⟨rfl, rfl, rfl⟩

/-- C7 amended: a testing-stage run whose test command exits with code 1
transitions the record back to `coding` with `test_errors` populated from
the command, exit code and (truncated) output, and reports a failed test;
the iteration counter is left unchanged by this transition (the coder
increments it when it later moves `coding → testing`). -/
theorem tester_fail_transition (s : SwarmState) (env : TesterEnv)
    (hE : env.stateFileExists = true) (hS : s.status = "testing")
    (hN : noneOrEmpty s.testCommand = false) (hB : buildFails env = false)
    (hR : env.testRc = 1) :
    (testerProcessTask s env).state.status = "coding" ∧
    (testerProcessTask s env).state.testErrors
      = mkTestErrors (effectiveTestCommand (s.testCommand.getD "") env.jestConfigExists)
          1 env.testOut ∧
    (testerProcessTask s env).state.iterations = s.iterations ∧
    (testerProcessTask s env).action = "tested" ∧
    (testerProcessTask s env).passed = some false := by
  have hR0 : ¬ (env.testRc = 0) := by simp [hR]
  refine ⟨?_, ?_, ?_, ?_, ?_⟩ <;> simp [testerProcessTask, hE, hS, hN, hB, hR0, hR]

/-- C7 amended witness. -/
theorem tester_fail_transition_witness :
    (testerProcessTask exTestState exTesterEnvFail).state.status = "coding" ∧
    (testerProcessTask exTestState exTesterEnvFail).state.iterations = 0 :=
  ⟨(tester_fail_transition exTestState exTesterEnvFail rfl rfl rfl rfl rfl).1,
   ((tester_fail_transition exTestState exTesterEnvFail rfl rfl rfl rfl rfl).2.2.1).trans rfl⟩

/-- Auxiliary: non-blankness distributes over string append. -/
theorem isNonBlank_append (a b : String) :
    isNonBlank (a ++ b) = (isNonBlank a || isNonBlank b) := by
  simp [isNonBlank, String.data_append, List.any_append]

/-- Auxiliary: a serialized progress record is a non-blank line. -/
theorem isNonBlank_encodeStep (st : ProgressStep) :
    isNonBlank (encodeStep st) = true := by
  have h1 : isNonBlank "\x7b\"index\": " = true := by decide
  simp [encodeStep, isNonBlank_append, h1]

/-- Auxiliary: appending one serialized record raises the non-blank line
count by exactly one. -/
theorem count_append_record (file : List String) (st : ProgressStep) :
    ((file ++ [encodeStep st]).filter isNonBlank).length
      = (file.filter isNonBlank).length + 1 := by
  simp [List.filter_append, isNonBlank_encodeStep]

/-- C8 amended: the shared base-agent `write_progress` derives the index
from the current non-blank-line count of the file, so two sequential
appends through it write indexes c and c+1 (c = prior record count); the
coder agent's own `write_progress`, however, writes an in-memory
per-process counter (0 on first use) and bumps it, ignoring the records
already in the file. -/
theorem progress_index_semantics (file : List String) (a b : ProgressArgs) (k : Nat) :
    (BaseAgent.write_progress file a).1.index = (file.filter isNonBlank).length ∧
    (BaseAgent.write_progress (BaseAgent.write_progress file a).2 b).1.index
      = (file.filter isNonBlank).length + 1 ∧
    (CoderAgent.write_progress k file a).1.index = k ∧
    (CoderAgent.write_progress k file a).2.1 = k + 1 := by
  refine ⟨rfl, ?_, rfl, rfl⟩
  simp [BaseAgent.write_progress, List.filter_append, isNonBlank_encodeStep]

/-- Arguments of a sample progress record. -/
def exProgressArgs : ProgressArgs :=
  { phase := "execution", title := "Step 1", description := "first step", detail := "" }

/-- A progress file already holding one record (written by an earlier
process through the base-agent appender). -/
def exProgressFile : List String :=
  (BaseAgent.write_progress [] exProgressArgs).2

/-- C8 counterexample: with one record already in the log, a fresh coder
process's `write_progress` writes index 0, not the record count 1 — the
coder agent's index is not derived from the log at write time. -/
theorem coder_progress_index_cex :
    (exProgressFile.filter isNonBlank).length = 1 ∧
    (CoderAgent.write_progress 0 exProgressFile exProgressArgs).1.index = 0 :=
  ⟨by decide, rfl⟩

end TaskHive

